import Mathlib

set_option maxRecDepth 8000

namespace Exonum

/-- JavaScript values that flow through the serializer: numbers, strings, or
the absent-property value undefined. -/
inductive JsValue where
  | undef : JsValue
  | num : Nat → JsValue
  | str : String → JsValue
  deriving DecidableEq

/-- Errors raised by the code. The constructors typeError and rangeError model
the JavaScript TypeError and RangeError values thrown by the source and by the
primitive codec. Modelled from the spec: the constructor unknownMessageKind
stands for the UnknownMessageKindError of the spec's error taxonomy; the source
never constructs such an error. -/
inductive JsError where
  | typeError : String → JsError
  | rangeError : String → JsError
  | unknownMessageKind : JsError
  deriving DecidableEq

/-- Decidable equality for Except results, so that concrete runs of the
serializer can be checked by decide. -/
instance {ε α : Type} [DecidableEq ε] [DecidableEq α] : DecidableEq (Except ε α) := fun a b =>
  match a, b with
  | Except.error x, Except.error y =>
    match decEq x y with
    | isTrue h => isTrue (congrArg Except.error h)
    | isFalse h => isFalse (fun hc => h (Except.error.inj hc))
  | Except.ok x, Except.ok y =>
    match decEq x y with
    | isTrue h => isTrue (congrArg Except.ok h)
    | isFalse h => isFalse (fun hc => h (Except.ok.inj hc))
  | Except.error _, Except.ok _ => isFalse (fun hc => Except.noConfusion hc)
  | Except.ok _, Except.error _ => isFalse (fun hc => Except.noConfusion hc)

/-- Modelled from the spec: a TypeHandle (primitive.js and generic.js are not
in the repository snapshot) is polymorphic over the capability set
size() -> int or undefined, and serialize(value, buffer, offset); here encode
gives the bytes the type writes for a value, and size? is its fixed width, or
none for a variable-size type. -/
structure TypeHandle where
  size? : Option Nat
  encode : JsValue → Except JsError (List Nat)

/-- A schema field after the construction-time validation: both name and type
are present. -/
structure Field where
  name : String
  type : TypeHandle

/-- A raw field descriptor exactly as supplied to the constructor: in
JavaScript either property may be undefined, modelled as none. -/
structure FieldSpec where
  name : Option String
  type : Option TypeHandle

/-- The type-descriptor object passed to newMessage; the constructor copies
these properties onto the new instance. -/
structure TypeDescriptor where
  protocol_version : Nat
  message_id : Nat
  service_id : Nat
  signature : Option String
  fields : List FieldSpec
  public_key : String
  consensus_tag : Nat
  message_type : String

/-- A NewMessage instance: the own properties the constructor assigns
(message.js lines 25-33), together with the two properties the methods read
but the constructor never assigns (publicKey at line 48-49, messageType at
line 97); reading a never-assigned property yields undefined, modelled none. -/
structure NewMessage where
  protocol_version : Nat
  message_id : Nat
  service_id : Nat
  signature : Option String
  fields : List Field
  public_key : String
  consensus_tag : Nat
  message_type : String
  publicKey : Option String
  messageType : Option String

/-- Value of a hexadecimal digit character. -/
def hexVal (c : Char) : Option Nat :=
  let n := c.toNat
  if 48 ≤ n ∧ n ≤ 57 then some (n - 48)
  else if 97 ≤ n ∧ n ≤ 102 then some (n - 87)
  else if 65 ≤ n ∧ n ≤ 70 then some (n - 55)
  else none

/-- Decode a hexadecimal character sequence two digits per byte. -/
def hexToBytesAux : List Char → Option (List Nat)
  | [] => some []
  | [_] => none
  | a :: b :: rest =>
    match hexVal a, hexVal b, hexToBytesAux rest with
    | some x, some y, some bs => some ((16 * x + y) :: bs)
    | _, _, _ => none

/-- Decode a hexadecimal string into bytes. -/
def hexToBytes (s : String) : Option (List Nat) :=
  hexToBytesAux s.data

/-- Little-endian bytes of a value at a given byte width. -/
def uintBytesLE : Nat → Nat → List Nat
  | 0, _ => []
  | w + 1, v => v % 256 :: uintBytesLE w (v / 256)

/-- Write one 8-bit value at a position of a growable buffer, extending the
buffer with zero padding when the position is past the end. -/
def writeByteAt (buf : List Nat) (off : Nat) (b : Nat) : List Nat :=
  if off < buf.length then buf.set off b
  else buf ++ List.replicate (off - buf.length) 0 ++ [b]

/-- Write a run of bytes starting at a position of a growable buffer. -/
def writeBytesAt : List Nat → Nat → List Nat → List Nat
  | buf, _, [] => buf
  | buf, off, b :: bs => writeBytesAt (writeByteAt buf off b) (off + 1) bs

/-- Modelled from the spec: the primitive codec's unsigned-integer encoding
(primitive.js is not in the repository snapshot); a value outside the
representable range for the declared width fails with a RangeError
equivalent. -/
def uintEncode (width : Nat) : JsValue → Except JsError (List Nat)
  | JsValue.num n =>
    if n < 2 ^ (8 * width) then Except.ok (uintBytesLE width n)
    else Except.error (JsError.rangeError "value out of range")
  | _ => Except.error (JsError.rangeError "value is not a number")

def Uint16 : TypeHandle := { size? := some 2, encode := uintEncode 2 }

def Uint32 : TypeHandle := { size? := some 4, encode := uintEncode 4 }

def Uint64 : TypeHandle := { size? := some 8, encode := uintEncode 8 }

/-- Modelled from the spec: fixed-length hexadecimal types (hexadecimal.js is
not in the repository snapshot) encode a hexadecimal string of the declared
byte width. -/
def hexEncode (byteWidth : Nat) : JsValue → Except JsError (List Nat)
  | JsValue.str s =>
    match hexToBytes s with
    | some bs =>
      if bs.length = byteWidth then Except.ok bs
      else Except.error (JsError.typeError "hexadecimal value of wrong length")
    | none => Except.error (JsError.typeError "value is not hexadecimal")
  | _ => Except.error (JsError.typeError "value is not hexadecimal")

/-- Modelled from the spec: Hash is a 32-byte hexadecimal type. -/
def Hash : TypeHandle := { size? := some 32, encode := hexEncode 32 }

/-- Modelled from the spec: Digest is the fixed-width type used to append the
64-byte signature. -/
def Digest : TypeHandle := { size? := some 64, encode := hexEncode 64 }

/-- Modelled from the spec: a variable-size type, whose size() is undefined
and whose encoded width is only known at encoding time. -/
def VarBytes : TypeHandle :=
  { size? := none
    encode := fun v =>
      match v with
      | JsValue.str s => Except.ok (s.data.map Char.toNat)
      | _ => Except.error (JsError.typeError "value is not a string") }

/-- Modelled from the spec: primitive serialize(value, buffer, offset) for an
unsigned integer writes the little-endian representation at the offset,
growing the buffer when needed. -/
def uintSerializeAt (width v : Nat) (buf : List Nat) (off : Nat) : Except JsError (List Nat) :=
  if v < 2 ^ (8 * width) then Except.ok (writeBytesAt buf off (uintBytesLE width v))
  else Except.error (JsError.rangeError "value out of range")

/-- Modelled from the spec: fieldIsFixed (generic.js is not in the repository
snapshot) is true iff the field type's size() returns a defined value. -/
def fieldIsFixed (field : Field) : Bool :=
  field.type.size?.isSome

/-- The byte weight a field contributes to the fixed-prefix region: its fixed
width, or 8 for a variable field (the offset and length segment). -/
def fixedWeight (field : Field) : Nat :=
  match field.type.size? with
  | some n => n
  | none => 8

/-- The byte length of a record's fixed-prefix region. -/
def recordFixedSize (fields : List Field) : Nat :=
  (fields.map fixedWeight).sum

/-- A caller-supplied data object: named values looked up by field name. -/
abbrev DataObject := List (String × JsValue)

/-- Property lookup on a data object. -/
def lookupField (data : DataObject) (name : String) : Option JsValue :=
  match data.find? (fun p => p.fst == name) with
  | some p => some p.snd
  | none => none

/-- Modelled from the spec: the generic record serialization
(serialization.js is not in the repository snapshot). For each field in
declaration order: a fixed field's bytes go at the fixed-segment cursor; a
variable field contributes an 8-byte offset and length segment at the cursor
while its actual bytes are appended to the trailing variable segment. Returns
the fixed segment and the variable segment; fails if the data object lacks a
field or a value cannot be encoded. -/
def serializeFields : List Field → DataObject → Nat → Nat → Except JsError (List Nat × List Nat)
  | [], _, _, _ => Except.ok ([], [])
  | field :: rest, data, base, tailLen =>
    match lookupField data field.name with
    | none => Except.error (JsError.typeError ("Field " ++ field.name ++ " is not defined."))
    | some v =>
      match field.type.size? with
      | some _ =>
        match field.type.encode v with
        | Except.error err => Except.error err
        | Except.ok enc =>
          match serializeFields rest data base tailLen with
          | Except.error err => Except.error err
          | Except.ok (fx, tl) => Except.ok (enc ++ fx, tl)
      | none =>
        match field.type.encode v with
        | Except.error err => Except.error err
        | Except.ok enc =>
          match serializeFields rest data base (tailLen + enc.length) with
          | Except.error err => Except.error err
          | Except.ok (fx, tl) =>
            Except.ok (uintBytesLE 4 ((base + tailLen) % 2 ^ 32) ++
              uintBytesLE 4 (enc.length % 2 ^ 32) ++ fx, tl ++ enc)

/-- Modelled from the spec: full record serialization, the fixed segment
followed by the variable segment. -/
def serializeRecord (fields : List Field) (data : DataObject) : Except JsError (List Nat) :=
  match serializeFields fields data (recordFixedSize fields) 0 with
  | Except.error err => Except.error err
  | Except.ok (fx, tl) => Except.ok (fx ++ tl)

/-- The MessageHead schema built inside transactionHeaderSerialization
(message.js lines 36-45). -/
def transactionHeaderFields : List Field :=
  [{ name := "protocol_version", type := Uint16 },
   { name := "pk_size", type := Uint64 },
   { name := "pk_data", type := Hash },
   { name := "tx_tag", type := Uint32 },
   { name := "service_id", type := Uint16 },
   { name := "full_tx_len", type := Uint64 }]

/-- The MessageHead schema built inside precommitHeaderSerialization
(message.js lines 59-68); note precommit_tag is declared Uint32. -/
def precommitHeaderFields : List Field :=
  [{ name := "protocol_version", type := Uint16 },
   { name := "pk_size", type := Uint64 },
   { name := "pk_data", type := Hash },
   { name := "consensus_tag", type := Uint32 },
   { name := "precommit_tag", type := Uint32 },
   { name := "precommit_len", type := Uint64 }]

/-- The byte widths the fields of a schema occupy in the fixed region. -/
def schemaWidths (fields : List Field) : List Nat :=
  fields.map fixedWeight

/-- The byte offsets at which the fields of a schema start, cumulative
from 0. -/
def schemaOffsets : List Field → List Nat
  | [] => []
  | field :: rest => 0 :: (schemaOffsets rest).map (fun off => off + fixedWeight field)

/-- The construction-time validation loop of the NewMessage constructor
(message.js lines 16-23): for each field in order, a missing name property
throws TypeError before a missing type property does; the assignments of the
instance state happen only after every field passed. -/
def validateFields : List FieldSpec → Except JsError (List Field)
  | [] => Except.ok []
  | f :: rest =>
    match f.name with
    | none => Except.error (JsError.typeError "Name prop is missed.")
    | some n =>
      match f.type with
      | none => Except.error (JsError.typeError "Type prop is missed.")
      | some ty =>
        match validateFields rest with
        | Except.error err => Except.error err
        | Except.ok fs => Except.ok ({ name := n, type := ty } :: fs)

/-- The exported constructor newMessage (message.js lines 169-171 and 15-33):
validates the descriptor's fields, then assigns protocol_version, message_id,
service_id, signature, fields, public_key, consensus_tag and message_type.
The properties publicKey and messageType are never assigned. -/
def newMessage (t : TypeDescriptor) : Except JsError NewMessage :=
  match validateFields t.fields with
  | Except.error err => Except.error err
  | Except.ok fs =>
    Except.ok
      { protocol_version := t.protocol_version
        message_id := t.message_id
        service_id := t.service_id
        signature := t.signature
        fields := fs
        public_key := t.public_key
        consensus_tag := t.consensus_tag
        message_type := t.message_type
        publicKey := none
        messageType := none }

def SIGNATURE_LENGTH : Nat := 64

/-- The JavaScript TypeError message raised when a property of undefined is
read. -/
def undefinedLengthMsg : String := "Cannot read property length of undefined"

/-- transactionHeaderSerialization (message.js lines 35-56): the header object
computes pk_size as this.publicKey.length / 2 and pk_data as this.publicKey;
when the publicKey property is undefined the length read throws a TypeError
before any byte is produced. -/
def NewMessage.transactionHeaderSerialization (e : NewMessage) : Except JsError (List Nat) :=
  match e.publicKey with
  | none => Except.error (JsError.typeError undefinedLengthMsg)
  | some pk =>
    serializeRecord transactionHeaderFields
      [("protocol_version", JsValue.num e.protocol_version),
       ("pk_size", JsValue.num (pk.length / 2)),
       ("pk_data", JsValue.str pk),
       ("tx_tag", JsValue.num 0),
       ("service_id", JsValue.num e.service_id),
       ("full_tx_len", JsValue.num 0)]

/-- precommitHeaderSerialization (message.js lines 58-79): this path reads
this.public_key, the property the constructor does assign. -/
def NewMessage.precommitHeaderSerialization (e : NewMessage) : Except JsError (List Nat) :=
  serializeRecord precommitHeaderFields
    [("protocol_version", JsValue.num e.protocol_version),
     ("pk_size", JsValue.num (e.public_key.length / 2)),
     ("pk_data", JsValue.str e.public_key),
     ("consensus_tag", JsValue.num e.consensus_tag),
     ("precommit_tag", JsValue.num e.service_id),
     ("precommit_len", JsValue.num 0)]

/-- size (message.js lines 81-88): reduce over the fields, adding
field.type.size() for a fixed field and 8 for a variable one. In the fixed
branch size() is defined, so getD 0 returns exactly that value. -/
def NewMessage.size (e : NewMessage) : Nat :=
  e.fields.foldl
    (fun accumulator field =>
      if fieldIsFixed field then accumulator + field.type.size?.getD 0
      else accumulator + 8) 0

/-- serialize (message.js lines 96-119): pick the header by comparing
this.messageType with the string precommit, serialize the body from the
envelope's fields, patch the body length at offset 48, append the body, append
the 8-byte SIGNATURE_LENGTH marker, and unless cutSignature is true append
the signature via Digest. The console.log side effect is dropped. -/
def NewMessage.serialize (e : NewMessage) (data : DataObject) (cutSignature : Bool) :
    Except JsError (List Nat) :=
  match (if e.messageType = some "precommit" then e.precommitHeaderSerialization
         else e.transactionHeaderSerialization) with
  | Except.error err => Except.error err
  | Except.ok buffer =>
    match serializeRecord e.fields data with
    | Except.error err => Except.error err
    | Except.ok body =>
      match uintSerializeAt 8 body.length buffer 48 with
      | Except.error err => Except.error err
      | Except.ok buffer2 =>
        let buffer3 := buffer2 ++ body
        match uintSerializeAt 8 SIGNATURE_LENGTH buffer3 buffer3.length with
        | Except.error err => Except.error err
        | Except.ok buffer4 =>
          if cutSignature = true then Except.ok buffer4
          else
            match Digest.encode
                (match e.signature with
                 | some s => JsValue.str s
                 | none => JsValue.undef) with
            | Except.error err => Except.error err
            | Except.ok sigBytes => Except.ok (writeBytesAt buffer4 buffer4.length sigBytes)

/-- A 32-byte public key as a 64-character hexadecimal string. -/
def pkHex : String := String.mk (List.replicate 64 'a')

/-- A 64-byte signature as a 128-character hexadecimal string. -/
def sigHex : String := String.mk (List.replicate 128 'b')

/-- A data object carrying one Uint64 field named amount. -/
def amountData : DataObject := [("amount", JsValue.num 100)]

/-- A raw descriptor field list with one valid Uint64 field named amount. -/
def amountFieldSpecs : List FieldSpec :=
  [{ name := some "amount", type := some Uint64 }]

/-- The validated form of amountFieldSpecs. -/
def amountFields : List Field :=
  [{ name := "amount", type := Uint64 }]

/-- A descriptor whose message kind is precommit. -/
def descC1 : TypeDescriptor :=
  { protocol_version := 0, message_id := 0, service_id := 5, signature := some sigHex,
    fields := [], public_key := pkHex, consensus_tag := 7, message_type := "precommit" }

/-- The envelope newMessage builds from descC1. -/
def envC1 : NewMessage :=
  { protocol_version := 0, message_id := 0, service_id := 5, signature := some sigHex,
    fields := [], public_key := pkHex, consensus_tag := 7, message_type := "precommit",
    publicKey := none, messageType := none }

/-- The 58 bytes the precommit header path produces for envC1: protocol
version u16, pk_size = 32 u64, 32 public-key bytes, consensus_tag = 7 u32,
precommit_tag = service_id = 5 u32, precommit_len = 0 u64. -/
def precommitHeaderBytesC1 : List Nat :=
  [0, 0] ++ [32, 0, 0, 0, 0, 0, 0, 0] ++ List.replicate 32 170 ++
    [7, 0, 0, 0] ++ [5, 0, 0, 0] ++ [0, 0, 0, 0, 0, 0, 0, 0]

/-- A transaction-kind descriptor with one Uint64 body field. -/
def descC3 : TypeDescriptor :=
  { protocol_version := 0, message_id := 1, service_id := 130, signature := some sigHex,
    fields := amountFieldSpecs, public_key := pkHex, consensus_tag := 0,
    message_type := "transaction" }

/-- The envelope newMessage builds from descC3. -/
def envC3 : NewMessage :=
  { protocol_version := 0, message_id := 1, service_id := 130, signature := some sigHex,
    fields := amountFields, public_key := pkHex, consensus_tag := 0,
    message_type := "transaction", publicKey := none, messageType := none }

/-- A transaction-kind descriptor, distinct instance for the signature
relation claim. -/
def descC4 : TypeDescriptor :=
  { protocol_version := 1, message_id := 2, service_id := 131, signature := some sigHex,
    fields := amountFieldSpecs, public_key := pkHex, consensus_tag := 0,
    message_type := "transaction" }

/-- The envelope newMessage builds from descC4. -/
def envC4 : NewMessage :=
  { protocol_version := 1, message_id := 2, service_id := 131, signature := some sigHex,
    fields := amountFields, public_key := pkHex, consensus_tag := 0,
    message_type := "transaction", publicKey := none, messageType := none }

/-- A transaction-kind descriptor, distinct instance for the determinism
claim. -/
def descC5 : TypeDescriptor :=
  { protocol_version := 2, message_id := 3, service_id := 132, signature := some sigHex,
    fields := amountFieldSpecs, public_key := pkHex, consensus_tag := 0,
    message_type := "transaction" }

/-- The envelope newMessage builds from descC5. -/
def envC5 : NewMessage :=
  { protocol_version := 2, message_id := 3, service_id := 132, signature := some sigHex,
    fields := amountFields, public_key := pkHex, consensus_tag := 0,
    message_type := "transaction", publicKey := none, messageType := none }

/-- An envelope with one fixed and one variable field, a concrete instance
for the size claim. -/
def envC6 : NewMessage :=
  { protocol_version := 0, message_id := 4, service_id := 133, signature := some sigHex,
    fields := [{ name := "amount", type := Uint64 }, { name := "payload", type := VarBytes }],
    public_key := pkHex, consensus_tag := 0, message_type := "transaction",
    publicKey := none, messageType := none }

/-- A descriptor whose first field lacks the name property. -/
def descC7 : TypeDescriptor :=
  { protocol_version := 0, message_id := 5, service_id := 134, signature := some sigHex,
    fields := [{ name := none, type := some Uint16 }], public_key := pkHex,
    consensus_tag := 0, message_type := "transaction" }

/-- A transaction-kind descriptor, distinct instance for the buffer-writes
claim. -/
def descC8 : TypeDescriptor :=
  { protocol_version := 3, message_id := 6, service_id := 135, signature := some sigHex,
    fields := amountFieldSpecs, public_key := pkHex, consensus_tag := 0,
    message_type := "transaction" }

/-- The envelope newMessage builds from descC8. -/
def envC8 : NewMessage :=
  { protocol_version := 3, message_id := 6, service_id := 135, signature := some sigHex,
    fields := amountFields, public_key := pkHex, consensus_tag := 0,
    message_type := "transaction", publicKey := none, messageType := none }

/-- A descriptor whose message kind is neither transaction nor precommit. -/
def descC9 : TypeDescriptor :=
  { protocol_version := 0, message_id := 7, service_id := 136, signature := some sigHex,
    fields := [], public_key := pkHex, consensus_tag := 0, message_type := "gossip" }

/-- The envelope newMessage builds from descC9. -/
def envC9 : NewMessage :=
  { protocol_version := 0, message_id := 7, service_id := 136, signature := some sigHex,
    fields := [], public_key := pkHex, consensus_tag := 0, message_type := "gossip",
    publicKey := none, messageType := none }

/-- A transaction-kind descriptor, distinct instance for the publicKey
claim. -/
def descC10 : TypeDescriptor :=
  { protocol_version := 4, message_id := 8, service_id := 137, signature := some sigHex,
    fields := [], public_key := pkHex, consensus_tag := 0, message_type := "transaction" }

/-- The envelope newMessage builds from descC10. -/
def envC10 : NewMessage :=
  { protocol_version := 4, message_id := 8, service_id := 137, signature := some sigHex,
    fields := [], public_key := pkHex, consensus_tag := 0, message_type := "transaction",
    publicKey := none, messageType := none }

theorem newMessage_never_assigns (t : TypeDescriptor) (e : NewMessage)
    (h : newMessage t = Except.ok e) : e.publicKey = none ∧ e.messageType = none := by
  unfold newMessage at h
  cases hv : validateFields t.fields with
  | error err => rw [hv] at h; cases h
  | ok fs =>
    rw [hv] at h
    cases h
    exact ⟨rfl, rfl⟩

theorem transactionHeader_ignores_public_key (e : NewMessage) (pk : String) :
    NewMessage.transactionHeaderSerialization { e with public_key := pk } =
      e.transactionHeaderSerialization := by
  cases e
  rfl

theorem serialize_always_transaction_path (t : TypeDescriptor) (e : NewMessage)
    (d : DataObject) (cut : Bool) (h : newMessage t = Except.ok e) :
    e.serialize d cut = Except.error (JsError.typeError undefinedLengthMsg) := by
  obtain ⟨hpk, hmt⟩ := newMessage_never_assigns t e h
  have htx : e.transactionHeaderSerialization =
      Except.error (JsError.typeError undefinedLengthMsg) := by
    unfold NewMessage.transactionHeaderSerialization
    rw [hpk]
  unfold NewMessage.serialize
  rw [hmt]
  simp only [reduceCtorEq, if_false]
  rw [htx]

theorem size_foldl_weight (l : List Field) (acc : Nat) :
    l.foldl
      (fun accumulator field =>
        if fieldIsFixed field then accumulator + field.type.size?.getD 0
        else accumulator + 8) acc = acc + (l.map fixedWeight).sum := by
  induction l generalizing acc with
  | nil => simp
  | cons f rest ih =>
    rw [List.foldl_cons, ih, List.map_cons, List.sum_cons]
    cases h : f.type.size? with
    | none =>
      simp only [fieldIsFixed, h, Option.isSome_none, Bool.false_eq_true, if_false, fixedWeight]
      omega
    | some n =>
      simp only [fieldIsFixed, h, Option.isSome_some, if_true, Option.getD_some, fixedWeight]
      omega

theorem validateFields_error (l : List FieldSpec)
    (h : ∃ f, f ∈ l ∧ (f.name = none ∨ f.type = none)) :
    ∃ msg, validateFields l = Except.error (JsError.typeError msg) := by
  induction l with
  | nil =>
    obtain ⟨f, hf, _⟩ := h
    cases hf
  | cons f0 rest ih =>
    cases hn : f0.name with
    | none => exact ⟨"Name prop is missed.", by unfold validateFields; rw [hn]⟩
    | some n =>
      cases ht : f0.type with
      | none => exact ⟨"Type prop is missed.", by unfold validateFields; rw [hn, ht]⟩
      | some ty =>
        have hrest : ∃ g, g ∈ rest ∧ (g.name = none ∨ g.type = none) := by
          obtain ⟨f, hf, hbad⟩ := h
          cases hf with
          | head =>
            cases hbad with
            | inl hb => rw [hn] at hb; cases hb
            | inr hb => rw [ht] at hb; cases hb
          | tail _ hmem => exact ⟨f, hmem, hbad⟩
        obtain ⟨msg, hmsg⟩ := ih hrest
        refine ⟨msg, ?_⟩
        unfold validateFields
        rw [hn, ht, hmsg]

/-- Claim C1: serialize is claimed to pick the precommit header for a
precommit-kind envelope and the transaction header otherwise. The code reads
this.messageType, which the constructor never assigns (it assigns
this.message_type), so even a precommit-kind envelope takes the
transaction-header branch: its serialize fails with that branch's TypeError,
while its precommit header serialization, called directly, succeeds. -/
theorem c1_message_kind_dispatch_bug :
    newMessage descC1 = Except.ok envC1 ∧
    envC1.message_type = "precommit" ∧
    envC1.messageType = none ∧
    envC1.serialize [] true = Except.error (JsError.typeError undefinedLengthMsg) ∧
    envC1.precommitHeaderSerialization = Except.ok precommitHeaderBytesC1 :=
  ⟨rfl, rfl, rfl, rfl, by decide⟩

/-- Claim C2, counterexample: the precommit header is claimed to have a
width-2 field at offset 46 and its width-8 length field at offset 48, as the
transaction header does; but precommit_tag is declared Uint32, so the field
at offset 46 has width 4 and precommit_len starts at offset 50. -/
theorem c2_precommit_layout_counterexample :
    (schemaWidths precommitHeaderFields)[4]? = some 4 ∧
    (schemaOffsets precommitHeaderFields)[5]? = some 50 ∧
    ¬((schemaWidths precommitHeaderFields)[4]? = some 2 ∧
      (schemaOffsets precommitHeaderFields)[5]? = some 48) := by decide

/-- Claim C2, amended: the field names change as claimed
(tx_tag to consensus_tag, service_id to precommit_tag) and precommit_tag is
set to service_id, but the layouts differ: precommit_tag is a width-4 Uint32
at offset 46, precommit_len is the width-8 length field at offset 50, and the
precommit header is 58 bytes against the transaction header's 56. -/
theorem c2_precommit_layout_actual :
    schemaWidths transactionHeaderFields = [2, 8, 32, 4, 2, 8] ∧
    schemaOffsets transactionHeaderFields = [0, 2, 10, 42, 46, 48] ∧
    schemaWidths precommitHeaderFields = [2, 8, 32, 4, 4, 8] ∧
    schemaOffsets precommitHeaderFields = [0, 2, 10, 42, 46, 50] ∧
    precommitHeaderFields.map Field.name =
      ["protocol_version", "pk_size", "pk_data", "consensus_tag", "precommit_tag",
       "precommit_len"] ∧
    recordFixedSize precommitHeaderFields = 58 ∧
    recordFixedSize transactionHeaderFields = 56 := by decide

/-- Claim C3: the length field at header offset 48 is claimed to equal the
appended body's byte length after serialize completes; but serialize never
completes: every run throws the transaction header path's TypeError (reading
length of the undefined this.publicKey) before the length patch is reached,
here shown on a one-field schema with data amount = 100. -/
theorem c3_body_length_never_written :
    newMessage descC3 = Except.ok envC3 ∧
    envC3.serialize amountData true = Except.error (JsError.typeError undefinedLengthMsg) ∧
    envC3.serialize amountData false = Except.error (JsError.typeError undefinedLengthMsg) :=
  ⟨rfl, rfl, rfl⟩

/-- Claim C4: serialize(data, false) is claimed to equal
serialize(data, true) plus the 64 signature bytes; but both calls fail with
the same TypeError before producing any bytes, so neither side of the
relation ever exists. -/
theorem c4_signature_relation_unreachable :
    newMessage descC4 = Except.ok envC4 ∧
    envC4.serialize amountData false = Except.error (JsError.typeError undefinedLengthMsg) ∧
    envC4.serialize amountData true = Except.error (JsError.typeError undefinedLengthMsg) ∧
    (∀ bs : List Nat, envC4.serialize amountData false ≠ Except.ok bs) :=
  ⟨rfl, rfl, rfl, fun _ hc => Except.noConfusion hc⟩

/-- Claim C5: serialize(data, true) is claimed to yield byte-identical output
on repeated identical calls; in the model serialize is a function, but it
never yields output at all: every call fails with the transaction header
path's TypeError. -/
theorem c5_preimage_never_produced :
    newMessage descC5 = Except.ok envC5 ∧
    envC5.serialize amountData true = Except.error (JsError.typeError undefinedLengthMsg) ∧
    (∀ bs : List Nat, envC5.serialize amountData true ≠ Except.ok bs) :=
  ⟨rfl, rfl, fun _ hc => Except.noConfusion hc⟩

/-- Claim C6: size() equals the sum over the schema's fields of the field's
fixed width when fieldIsFixed holds and 8 otherwise, for every envelope. -/
theorem c6_size_spec (e : NewMessage) :
    e.size = (e.fields.map fixedWeight).sum := by
  unfold NewMessage.size
  simpa using size_foldl_weight e.fields 0

/-- Claim C6 witness: the envelope with one Uint64 field and one variable
field has size 8 + 8 = 16. -/
theorem c6_size_spec_witness :
    envC6.size = ((envC6.fields).map fixedWeight).sum ∧ envC6.size = 16 :=
  ⟨c6_size_spec envC6, by decide⟩

/-- Claim C7: constructing an envelope from a descriptor containing a field
with an undefined name or type fails with a TypeError, and no envelope is
returned: the validation loop runs before any instance state is assigned. -/
theorem c7_construction_validation (t : TypeDescriptor)
    (h : ∃ f, f ∈ t.fields ∧ (f.name = none ∨ f.type = none)) :
    (∃ msg, newMessage t = Except.error (JsError.typeError msg)) ∧
    ∀ e, newMessage t ≠ Except.ok e := by
  obtain ⟨msg, hmsg⟩ := validateFields_error t.fields h
  constructor
  · exact ⟨msg, by unfold newMessage; rw [hmsg]⟩
  · intro e hc
    unfold newMessage at hc
    rw [hmsg] at hc
    cases hc

/-- Claim C7 witness: a descriptor whose only field lacks the name property
is rejected and yields no envelope. -/
theorem c7_construction_validation_witness :
    (∃ msg, newMessage descC7 = Except.error (JsError.typeError msg)) ∧
    ∀ e, newMessage descC7 ≠ Except.ok e :=
  c7_construction_validation descC7
    ⟨{ name := none, type := some Uint16 }, List.Mem.head _, Or.inl rfl⟩

/-- Claim C8: the output buffer is claimed to be append-only during serialize
except for the single length patch at offset 48; but serialize aborts with a
TypeError while building the transaction header object, before any buffer
write (header, patch, body, marker or signature) happens, so no output buffer
is ever produced. -/
theorem c8_no_buffer_writes_happen :
    newMessage descC8 = Except.ok envC8 ∧
    envC8.serialize amountData false = Except.error (JsError.typeError undefinedLengthMsg) ∧
    (∀ bs : List Nat, envC8.serialize amountData false ≠ Except.ok bs) :=
  ⟨rfl, rfl, fun _ hc => Except.noConfusion hc⟩

/-- Claim C9, amended: an envelope whose message kind is neither transaction
nor precommit does not fail with an UnknownMessageKindError (the code defines
no such error); the kind test reads the never-assigned this.messageType, so
the envelope takes the transaction-header path and fails with its TypeError
before producing output bytes. -/
theorem c9_unknown_kind_takes_transaction_path (t : TypeDescriptor) (e : NewMessage)
    (d : DataObject) (cut : Bool)
    (_hkind1 : t.message_type ≠ "transaction") (_hkind2 : t.message_type ≠ "precommit")
    (h : newMessage t = Except.ok e) :
    e.serialize d cut = Except.error (JsError.typeError undefinedLengthMsg) ∧
    e.serialize d cut ≠ Except.error JsError.unknownMessageKind := by
  have hs := serialize_always_transaction_path t e d cut h
  refine ⟨hs, ?_⟩
  rw [hs]
  decide

/-- Claim C9 witness: the gossip-kind envelope serializes to the TypeError,
not to an UnknownMessageKindError. -/
theorem c9_unknown_kind_witness :
    envC9.serialize [] true = Except.error (JsError.typeError undefinedLengthMsg) ∧
    envC9.serialize [] true ≠ Except.error JsError.unknownMessageKind :=
  c9_unknown_kind_takes_transaction_path descC9 envC9 [] true (by decide) (by decide) rfl

/-- Claim C9, counterexample: for the concrete gossip-kind envelope the
serializer fails with a TypeError, which is not the UnknownMessageKindError
the claim requires. -/
theorem c9_counterexample :
    descC9.message_type = "gossip" ∧
    newMessage descC9 = Except.ok envC9 ∧
    envC9.serialize [] false = Except.error (JsError.typeError undefinedLengthMsg) ∧
    JsError.typeError undefinedLengthMsg ≠ JsError.unknownMessageKind :=
  ⟨rfl, rfl, rfl, by decide⟩

/-- Claim C10: for every envelope built by newMessage the publicKey property
is undefined (the constructor assigns public_key instead), the transaction
header path fails on reading its length, and the constructor-supplied
public_key is never used on that path: replacing it changes nothing. -/
theorem c10_publicKey_never_assigned (t : TypeDescriptor) (e : NewMessage)
    (h : newMessage t = Except.ok e) :
    e.publicKey = none ∧
    e.transactionHeaderSerialization = Except.error (JsError.typeError undefinedLengthMsg) ∧
    ∀ pk : String, NewMessage.transactionHeaderSerialization { e with public_key := pk } =
      e.transactionHeaderSerialization := by
  obtain ⟨hpk, _⟩ := newMessage_never_assigns t e h
  refine ⟨hpk, ?_, fun pk => transactionHeader_ignores_public_key e pk⟩
  unfold NewMessage.transactionHeaderSerialization
  rw [hpk]

/-- Claim C10 witness: the concrete transaction-kind envelope has undefined
publicKey, its transaction header serialization fails, and its public_key is
irrelevant to that path. -/
theorem c10_publicKey_witness :
    envC10.publicKey = none ∧
    envC10.transactionHeaderSerialization = Except.error (JsError.typeError undefinedLengthMsg) ∧
    ∀ pk : String, NewMessage.transactionHeaderSerialization { envC10 with public_key := pk } =
      envC10.transactionHeaderSerialization :=
  c10_publicKey_never_assigned descC10 envC10 rfl

end Exonum
